import Mathlib

/-!
# Verification of the learny client core

Shallow embedding, in Lean 4, of the resilient progress-streaming client and
the local/remote history reconciliation layer of the learny repository:

* `getProgressUpdates` (src/unnamed/part_001, lines 201-285): an SSE client
  with bounded reconnection, modelled as a state machine `ClientState` driven
  by environment events `Ev` (connection opens, parsed data events, parse
  failures, transport errors, the 1-second reconnect timer firing, and the
  caller invoking the returned `close()` handle).  Callback invocations and
  connection attempts are recorded as outputs `Out`.
* the progress-message deduplication and the `calculateProgress` heuristic of
  `connectToProgressUpdates` (src/frontend/src/pages/GeneratorPage.js,
  lines 153-220).
* the auth-refresh queuing of `refreshAuthToken` and the response interceptor
  (src/unnamed/part_001, lines 19-64 and 379-431).
* the history facade `saveToHistory` / `updateHistoryEntry` /
  `deleteHistoryEntry` / `getHistoryPreview` (src/unnamed/part_001,
  lines 660-860).

The environment (server responses, the wall clock, the local store) is passed
explicitly as arguments; JavaScript runtime facts used by the model are the
standard EventSource contract (after `close()` an EventSource dispatches no
further events) and run-to-completion scheduling of the single-threaded event
loop.
-/

namespace Learny

/-- Parsed JSON payload of one SSE event: an optional `complete` flag and an
optional `message` string, mirroring the fields `getProgressUpdates` reads
(`data.complete`, `data.message`). -/
structure SSEData where
  complete : Bool
  message : Option String
deriving DecidableEq, Repr

/-- Environment events that drive one `getProgressUpdates` run:
`opened` (the EventSource `onopen` handler fires), `data` (an `onmessage`
whose payload parsed), `parseError` (`JSON.parse` threw inside `onmessage`),
`transportError` (`onerror` fires), `timerFire` (the pending
`setTimeout(connect, 1000)` reconnect timer fires), and `closeHandle`
(the caller invokes the returned handle's `close()`). -/
inductive Ev where
  | opened
  | data (d : SSEData)
  | parseError
  | transportError
  | timerFire
  | closeHandle
deriving DecidableEq, Repr

/-- Error kinds surfaced through `onError`: an in-stream `Error:` sentinel
message, a JSON parse failure, the terminal lost-connection error after the
retry bound is exceeded, and a synchronous EventSource construction failure. -/
inductive ErrKind where
  | serverError (m : String)
  | parseFailure
  | connectionLost
  | initFailure
deriving DecidableEq, Repr

/-- Observable outputs of the stream client: a connection attempt
(`new EventSource(...)` inside `connect`) and the three callbacks. -/
inductive Out where
  | connectAttempt
  | onMessage (d : SSEData)
  | onError (e : ErrKind)
  | onComplete
deriving DecidableEq, Repr

/-- State of one `getProgressUpdates` run: the `retryCount` counter, whether
the current EventSource is live (not yet closed), and whether a
`setTimeout(connect, 1000)` reconnect timer is pending. -/
structure ClientState where
  retryCount : Nat
  connLive : Bool
  pendingTimer : Bool
deriving DecidableEq, Repr

/-- `const MAX_RETRIES = 3` (src/unnamed/part_001 line 205). -/
def MAX_RETRIES : Nat := 3

/-- The `connect` function: creates a new EventSource (recorded as a
`connectAttempt`) and installs the handlers; the connection becomes live. -/
def connect (s : ClientState) : ClientState × List Out :=
  ({ s with connLive := true }, [Out.connectAttempt])

/-- State and outputs right after `getProgressUpdates` performed its initial
`connect()` call: `retryCount = 0`, no pending timer. -/
def initClient : ClientState × List Out :=
  connect ⟨0, false, false⟩

/-- One event of the environment processed by the installed handlers,
transcribed from src/unnamed/part_001 lines 214-272.  Handlers attached to an
EventSource fire only while it is live (`onmessage`/`onerror`/`onopen` after
`close()` never dispatch); the reconnect timer fires iff it is pending. -/
def step (s : ClientState) (e : Ev) : ClientState × List Out :=
  match e with
  | Ev.opened =>
      -- onopen: "Reset retry count on successful connection"
      if s.connLive then ({ s with retryCount := 0 }, []) else (s, [])
  | Ev.data d =>
      if s.connLive then
        if d.complete then
          -- eventSource.close(); if (onComplete) onComplete(); return
          ({ s with connLive := false }, [Out.onComplete])
        else
          match d.message with
          | some m =>
              if "Error:".toList.isPrefixOf m.toList then
                -- in-stream error sentinel: onError, connection kept open
                (s, [Out.onError (ErrKind.serverError m)])
              else
                -- retryCount = 0; if (onMessage) onMessage(data)
                ({ s with retryCount := 0 }, [Out.onMessage d])
          | none =>
              ({ s with retryCount := 0 }, [Out.onMessage d])
      else (s, [])
  | Ev.parseError =>
      -- catch around JSON.parse: onError(err), connection kept open
      if s.connLive then (s, [Out.onError ErrKind.parseFailure]) else (s, [])
  | Ev.transportError =>
      -- onerror: eventSource.close(); retry below the bound, else terminal
      if s.connLive then
        if s.retryCount < MAX_RETRIES then
          ({ s with connLive := false, retryCount := s.retryCount + 1,
                    pendingTimer := true }, [])
        else
          ({ s with connLive := false }, [Out.onError ErrKind.connectionLost])
      else (s, [])
  | Ev.timerFire =>
      -- setTimeout(connect, 1000) fires: connect() runs
      if s.pendingTimer then connect { s with pendingTimer := false }
      else (s, [])
  | Ev.closeHandle =>
      -- handle.close(): if (eventSource) eventSource.close()
      -- (the pending timer, if any, is NOT cancelled by the source)
      ({ s with connLive := false }, [])

/-- Process a list of environment events from a state, accumulating outputs. -/
def runEvents (s : ClientState) : List Ev → ClientState × List Out
  | [] => (s, [])
  | e :: rest =>
      let p := step s e
      let q := runEvents p.1 rest
      (q.1, p.2 ++ q.2)

/-- A whole `getProgressUpdates` run: the initial `connect()` followed by the
environment's events. -/
def runClient (es : List Ev) : ClientState × List Out :=
  let p := initClient
  let q := runEvents p.1 es
  (q.1, p.2 ++ q.2)

/-- `k` consecutive transport failures, each followed by the 1-second
reconnect timer firing. -/
def failPairs (k : Nat) : List Ev :=
  (List.replicate k [Ev.transportError, Ev.timerFire]).flatten

/-- Result of the initial synchronous part of `getProgressUpdates` when the
`new EventSource(...)` constructor may throw (`ok = false`): the catch block
reports the failure through `onError` and `eventSource` stays null, so the
returned handle's `close()` (guarded by `if (eventSource)`) is a no-op.
`everConnected` records whether `eventSource` is non-null. -/
structure OpenResult where
  state : ClientState
  outputs : List Out
  everConnected : Bool
deriving DecidableEq, Repr

/-- The initial `connect()` call of `getProgressUpdates`, with the possibility
that the EventSource constructor throws (src/unnamed/part_001 lines 209-272):
on success the connection is live; on a synchronous failure `onError` is
invoked with an init-failure error and no connection exists. -/
def getProgressUpdatesOpen (ok : Bool) : OpenResult :=
  if ok then
    let p := connect ⟨0, false, false⟩
    ⟨p.1, p.2, true⟩
  else
    ⟨⟨0, false, false⟩, [Out.onError ErrKind.initFailure], false⟩

/-- The returned handle's `close()`: `if (eventSource) eventSource.close()`.
When no EventSource was ever constructed it does nothing. -/
def handleClose (everConnected : Bool) (s : ClientState) : ClientState :=
  if everConnected then { s with connLive := false } else s

/-! ## Progress message recording and the percentage heuristic
(src/frontend/src/pages/GeneratorPage.js, `connectToProgressUpdates`) -/

/-- One recorded progress update; the page code only ever reads its
`message` field. -/
structure ProgressData where
  message : String
deriving DecidableEq, Repr

/-- The functional state update inside the page's `onMessage` callback
(GeneratorPage.js lines 163-169): append the incoming update unless its
message equals the message of the last recorded update. -/
def addProgressUpdate (prev : List ProgressData) (data : ProgressData) :
    List ProgressData :=
  if prev.length = 0 then prev ++ [data]
  else if (prev.getLastD ⟨""⟩).message ≠ data.message then prev ++ [data]
  else prev

/-- `sub` occurs as a contiguous run inside `l`. -/
def listIsInfixOf (sub : List Char) : List Char → Bool
  | [] => sub.isEmpty
  | c :: rest => sub.isPrefixOf (c :: rest) || listIsInfixOf sub rest

/-- JavaScript `String.prototype.includes`. -/
def strIncludes (s sub : String) : Bool :=
  listIsInfixOf sub.toList s.toList

/-- Numeric value of a nonempty digit string, as `parseInt` computes it. -/
def digitsToNat (cs : List Char) : Nat :=
  cs.foldl (fun n c => 10 * n + (c.toNat - '0'.toNat)) 0

/-- Try to match the regular expression `batch (\d+) with` at the head of the
character list: the literal `"batch "`, then one or more digits, then the
literal `" with"`. -/
def matchBatchAt (cs : List Char) : Option Nat :=
  if "batch ".toList.isPrefixOf cs then
    let rest := cs.drop 6
    let digits := rest.takeWhile Char.isDigit
    if digits.length > 0 && " with".toList.isPrefixOf (rest.drop digits.length) then
      some (digitsToNat digits)
    else none
  else none

/-- `lastMessage.match (regex for batch number)`: the first position at which
`batch (\d+) with` matches, scanning left to right. -/
def findBatchNumber : List Char → Option Nat
  | [] => none
  | c :: rest =>
      match matchBatchAt (c :: rest) with
      | some n => some n
      | none => findBatchNumber rest

/-- `calculateProgress` (GeneratorPage.js lines 172-205): ordered keyword
matching on the last message of the updates list; JavaScript numbers are
embedded as rationals (all values arising here are exact). -/
def calculateProgress (updates : List ProgressData) : ℚ :=
  if updates.length = 0 then 10
  else
    let lastMessage := (updates.getLastD ⟨""⟩).message
    if strIncludes lastMessage "Generated" && strIncludes lastMessage "search queries" then 20
    else if strIncludes lastMessage "Executed" && strIncludes lastMessage "web searches" then 30
    else if strIncludes lastMessage "Created learning path with" then 40
    else if strIncludes lastMessage "Planned" && strIncludes lastMessage "submodules" then 50
    else if strIncludes lastMessage "Organized" && strIncludes lastMessage "submodules into" then 60
    else if strIncludes lastMessage "Processing submodule batch" then
      match findBatchNumber lastMessage.toList with
      | some currentBatch => 60 + min (30 * ((currentBatch : ℚ) / 10)) 30
      | none => 70
    else if strIncludes lastMessage "Completed batch" then 80
    else if strIncludes lastMessage "Finalized" then 95
    else min (5 + (updates.length : ℚ) * 2) 90

/-- The page's `onMessage` callback (GeneratorPage.js lines 162-207) as it
executes on one inbound update: the recorded list is updated functionally via
`addProgressUpdate`, but `setProgressPercentage(calculateProgress(progressUpdates))`
evaluates the heuristic on `captured` — the `progressUpdates` value captured
by the callback's closure at the render in which the connection was opened —
not on the updated list. -/
def handleProgressMessage (captured current : List ProgressData)
    (data : ProgressData) : List ProgressData × ℚ :=
  (addProgressUpdate current data, calculateProgress captured)

/-! ## Auth refresh queuing
(src/unnamed/part_001: response interceptor lines 19-64, `refreshAuthToken`
lines 379-431) -/

/-- Module-level auth refresh state (`isRefreshingToken`,
`refreshSubscribers`), together with instrumentation: which request issued
the in-flight network refresh (`initiator`), how many `POST /auth/refresh`
network calls were made (`refreshCalls`), and which original requests have
been replayed (`replayed`). -/
structure AuthRefreshState where
  isRefreshingToken : Bool
  refreshSubscribers : List Nat
  initiator : Option Nat
  refreshCalls : Nat
  replayed : List Nat
deriving DecidableEq, Repr

/-- Initial auth refresh state: no refresh in flight, no subscribers. -/
def initAuthRefresh : AuthRefreshState := ⟨false, [], none, 0, []⟩

/-- The response interceptor receives a 401 for request `i` (a request that
is not `/auth/refresh` and has `_retry` unset) and calls `refreshAuthToken()`,
which runs synchronously up to its first await: if a refresh is already in
flight the request subscribes to its outcome (`subscribeTokenRefresh`
appends); otherwise it sets `isRefreshingToken` and issues the single
`POST /auth/refresh` network call. -/
def handle401 (s : AuthRefreshState) (i : Nat) : AuthRefreshState :=
  if s.isRefreshingToken then
    { s with refreshSubscribers := s.refreshSubscribers ++ [i] }
  else
    { s with isRefreshingToken := true, initiator := some i,
             refreshCalls := s.refreshCalls + 1 }

/-- The pending `POST /auth/refresh` resolves successfully:
`onTokenRefreshed` notifies every subscriber (each queued request's promise
resolves and the interceptor replays it), the subscriber list is emptied, the
initiating request is replayed by its own `.then`, and the `finally` clause
clears `isRefreshingToken`. -/
def refreshResolved (s : AuthRefreshState) : AuthRefreshState :=
  { s with
    isRefreshingToken := false,
    refreshSubscribers := [],
    initiator := none,
    replayed := s.replayed ++ s.refreshSubscribers ++ s.initiator.elim [] (fun i => [i]) }

/-! ## History facade (src/unnamed/part_001, lines 660-860) -/

/-- A failing remote call as the façade's catch blocks see it: the HTTP
status of the response (`0` standing for a transport failure with no
response). -/
structure RemoteErr where
  status : Nat
deriving DecidableEq, Repr

/-- Successful response body of `POST /learning-paths`: the server-issued
`path_id`. -/
structure CreateResp where
  path_id : String
deriving DecidableEq, Repr

/-- Result shape the façade's create operation returns:
`{ success, entry_id }`. -/
structure SaveResult where
  success : Bool
  entry_id : String
deriving DecidableEq, Repr

/-- Modelled from the spec: the Local History Store
(`src/frontend/src/services/localHistoryService.js`, imported by the façade
but absent from the source tree).  Per spec §2 and §4.2 it is a
browser-persisted mapping of entries that "owns the entry and issues its own
identifier" when unauthenticated; modelled as a counter for issuing fresh
local identifiers plus the stored entries. -/
structure LocalStore where
  nextId : Nat
  entries : List (Nat × String)
deriving DecidableEq, Repr

/-- Modelled from the spec: the shape of identifiers the Local History Store
generates locally (opaque to callers; distinguished here from server-issued
`path_id`s only so that "locally generated" is expressible). -/
def localId (n : Nat) : String := "local-" ++ toString n

/-- Modelled from the spec: `localHistoryService.saveToHistory` — persists
the entry locally and returns a locally generated identifier. -/
def localSaveToHistory (st : LocalStore) (topic : String) :
    SaveResult × LocalStore :=
  (⟨true, localId st.nextId⟩, ⟨st.nextId + 1, st.entries ++ [(st.nextId, topic)]⟩)

/-- `saveToHistory` (src/unnamed/part_001, lines 775-808), the façade create
operation.  `authToken` is the module-level token, `remote` the outcome the
backend would return for `POST /learning-paths` were it contacted.  The
returned `Bool` records whether the network was contacted.  Transcription:
with a token set the entry is POSTed and the server's `path_id` returned; the
catch block falls back to the Local History Store on ANY error; with no token
the Local History Store is used directly. -/
def saveToHistory (authToken : Option String)
    (remote : Except RemoteErr CreateResp) (st : LocalStore) (topic : String) :
    Bool × SaveResult × LocalStore :=
  match authToken with
  | some _ =>
      match remote with
      | Except.ok r => (true, ⟨true, r.path_id⟩, st)
      | Except.error _ =>
          let p := localSaveToHistory st topic
          (true, p.1, p.2)
  | none =>
      let p := localSaveToHistory st topic
      (false, p.1, p.2)

/-- `updateHistoryEntry` (lines 810-834): authenticated calls PUT the entry
and, on failure, rethrow (the local fallback in the catch is guarded by
`!authToken`, and no token clearing happens); unauthenticated calls use the
Local History Store.  Results: whether the network was contacted, the
surfaced outcome, and the auth token after the call. -/
def updateHistoryEntry (authToken : Option String)
    (remote : Except RemoteErr Unit) :
    Bool × Except RemoteErr SaveResult × Option String :=
  match authToken with
  | some _ =>
      match remote with
      | Except.ok _ => (true, Except.ok ⟨true, ""⟩, authToken)
      | Except.error e => (true, Except.error e, authToken)
  | none => (false, Except.ok ⟨true, ""⟩, authToken)

/-- `deleteHistoryEntry` (lines 836-860): same routing and failure handling
as `updateHistoryEntry`, with DELETE in place of PUT. -/
def deleteHistoryEntry (authToken : Option String)
    (remote : Except RemoteErr Unit) :
    Bool × Except RemoteErr SaveResult × Option String :=
  match authToken with
  | some _ =>
      match remote with
      | Except.ok _ => (true, Except.ok ⟨true, ""⟩, authToken)
      | Except.error e => (true, Except.error e, authToken)
  | none => (false, Except.ok ⟨true, ""⟩, authToken)

/-- The `(sortBy, filterSource, searchTerm)` triple of a preview call;
`none` models JavaScript `null`. -/
structure PreviewKey where
  sortBy : String
  filterSource : Option String
  searchTerm : Option String
deriving DecidableEq, Repr

/-- JavaScript `x || 'null'` on an optional string (both `null` and the empty
string are falsy). -/
def jsOrNull : Option String → String
  | none => "null"
  | some s => if s = "" then "null" else s

/-- The sessionStorage cache key
`` `history_preview_${sortBy}_${filterSource || 'null'}_${searchTerm || 'null'}` ``
(line 662). -/
def cacheKey (k : PreviewKey) : String :=
  "history_preview_" ++ k.sortBy ++ "_" ++ jsOrNull k.filterSource ++ "_"
    ++ jsOrNull k.searchTerm

/-- Response payload of `GET /learning-paths` as the preview path consumes
it (entries plus total; contents opaque). -/
structure PreviewResp where
  entries : List String
  total : Nat
deriving DecidableEq, Repr

/-- One cached preview payload with the timestamp at which it was stored. -/
structure CacheEntry where
  data : PreviewResp
  timestamp : Nat
deriving DecidableEq, Repr

/-- The per-key sessionStorage cache. -/
abbrev Cache : Type := List (String × CacheEntry)

/-- Look up a cache key. -/
def cacheGet (c : Cache) (key : String) : Option CacheEntry :=
  (List.find? (fun p => p.1 == key) c).map (fun p => p.2)

/-- Store a payload under a key, replacing any previous entry. -/
def cacheSet (c : Cache) (key : String) (e : CacheEntry) : Cache :=
  (key, e) :: List.filter (fun p => !(p.1 == key)) c

/-- `const cacheTimeMs = 60000` (line 663). -/
def cacheTimeMs : Nat := 60000

/-- Outcome of one `getHistoryPreview` call: how many network requests it
made (0 or 1), the returned payload, the cache afterwards, and the auth token
afterwards. -/
structure PreviewOutcome where
  networkCalls : Nat
  result : PreviewResp
  cache : Cache
  authAfter : Option String

/-- `getHistoryPreview` (lines 660-732).  `now` is `Date.now()`, `server`
the outcome `GET /learning-paths` would produce, `localResp` what
`localHistoryService.getHistoryPreview` returns (modelled from the spec: the
Local History Store's own filtered listing).  Transcription: no token →
local listing with no network attempt; otherwise a cache entry younger than
`cacheTimeMs` is returned without a network call; otherwise the server is
queried, a successful payload is cached under the key with the current
timestamp, and on failure the call falls back to the local listing, clearing
the token first when the status is 401 or 403.  (The model takes the server
response to be well-formed — carrying an `entries` field — and sessionStorage
writes to succeed.) -/
def getHistoryPreview (authToken : Option String) (now : Nat) (cache : Cache)
    (k : PreviewKey) (server : Except RemoteErr PreviewResp)
    (localResp : PreviewResp) : PreviewOutcome :=
  match authToken with
  | none => ⟨0, localResp, cache, authToken⟩
  | some _ =>
      let fetchFresh : PreviewOutcome :=
        match server with
        | Except.ok r => ⟨1, r, cacheSet cache (cacheKey k) ⟨r, now⟩, authToken⟩
        | Except.error e =>
            ⟨1, localResp, cache,
              if e.status = 401 ∨ e.status = 403 then none else authToken⟩
      match cacheGet cache (cacheKey k) with
      | some e => if now - e.timestamp < cacheTimeMs then ⟨0, e.data, cache, authToken⟩
                  else fetchFresh
      | none => fetchFresh

/-! ## Helper lemmas -/

theorem runEvents_append (s : ClientState) (t u : List Ev) :
    runEvents s (t ++ u) =
      ((runEvents (runEvents s t).1 u).1,
        (runEvents s t).2 ++ (runEvents (runEvents s t).1 u).2) := by
  induction t generalizing s with
  | nil => simp [runEvents]
  | cons e rest ih => simp [runEvents, ih (step s e).1, List.append_assoc]

theorem step_dead (s : ClientState) (e : Ev)
    (h1 : s.connLive = false) (h2 : s.pendingTimer = false) :
    step s e = (s, []) := by
  obtain ⟨rc, cl, pt⟩ := s
  simp only at h1 h2
  subst h1; subst h2
  cases e <;> simp [step]

theorem runEvents_dead (s : ClientState) (es : List Ev)
    (h1 : s.connLive = false) (h2 : s.pendingTimer = false) :
    runEvents s es = (s, []) := by
  induction es with
  | nil => rfl
  | cons e rest ih => simp [runEvents, step_dead s e h1 h2, ih]

theorem step_good (s : ClientState) (e : Ev)
    (h : s.connLive = true → s.pendingTimer = false) :
    (step s e).1.connLive = true → (step s e).1.pendingTimer = false := by
  cases e <;> simp only [step, connect] <;> (repeat' split) <;> simp_all

theorem runEvents_good (s : ClientState) (es : List Ev)
    (h : s.connLive = true → s.pendingTimer = false) :
    (runEvents s es).1.connLive = true → (runEvents s es).1.pendingTimer = false := by
  induction es generalizing s with
  | nil => exact h
  | cons e rest ih => exact ih (step s e).1 (step_good s e h)

/-! ## Claim theorems -/

theorem addProgressUpdate_chain' (l : List ProgressData) (d : ProgressData)
    (h : List.Chain' (fun a b => a.message ≠ b.message) l) :
    List.Chain' (fun a b => a.message ≠ b.message) (addProgressUpdate l d) := by
  unfold addProgressUpdate
  split
  · next hlen =>
      have : l = [] := List.length_eq_zero.mp hlen
      subst this; simp
  · split
    · next hlen hne =>
        refine List.chain'_append.2 ⟨h, List.chain'_singleton d, ?_⟩
        intro x hx y hy
        simp only [List.head?_cons, Option.mem_def, Option.some.injEq] at hy
        subst hy
        have hx' : l.getLast? = some x := hx
        rw [List.getLastD_eq_getLast?, hx'] at hne
        exact hne
    · exact h

/-- C1 (counterexample): on the 3rd consecutive transport failure the client
does NOT raise the terminal lost-connection error and a further reconnect IS
scheduled (the pending timer is set), contradicting the claim that `onError`
fires terminally at the 3rd consecutive failure with no 4th attempt; likewise
in the claimed sequence fail, fail, succeed, fail, fail, fail no terminal
error has been raised at the 3rd-after-reset failure — a reconnect is pending
instead. -/
theorem progress_retry_third_failure_reconnects :
    (Out.onError ErrKind.connectionLost ∉
        (runClient (failPairs 2 ++ [Ev.transportError])).2 ∧
      (runClient (failPairs 2 ++ [Ev.transportError])).1.pendingTimer = true) ∧
    (Out.onError ErrKind.connectionLost ∉
        (runClient (failPairs 2 ++ [Ev.data ⟨false, some "ok"⟩] ++ failPairs 2
          ++ [Ev.transportError])).2 ∧
      (runClient (failPairs 2 ++ [Ev.data ⟨false, some "ok"⟩] ++ failPairs 2
          ++ [Ev.transportError])).1.pendingTimer = true) := by
  constructor <;> constructor <;> decide

/-- C1 (amended): the client reconnects after each of the first three
consecutive transport failures (so any run with at most 3 consecutive
failures, each followed by the 1-second timer, ends live with one reconnect
per failure and no terminal error); the terminal lost-connection `onError`
fires on the 4th consecutive failure, after which no further attempt is
pending; and a successfully delivered message between failures resets the
consecutive-failure count, so in fail, fail, succeed, fail, fail, fail, fail
the terminal error is raised at the 4th failure after the reset. -/
theorem progress_retry_bound :
    (∀ k : Nat, k ≤ 3 →
      (runClient (failPairs k)).1 = ⟨k, true, false⟩ ∧
      (runClient (failPairs k)).2 = List.replicate (k + 1) Out.connectAttempt) ∧
    ((runClient (failPairs 3 ++ [Ev.transportError])).1 = ⟨3, false, false⟩ ∧
      (runClient (failPairs 3 ++ [Ev.transportError])).2 =
        List.replicate 4 Out.connectAttempt ++ [Out.onError ErrKind.connectionLost]) ∧
    ((runClient (failPairs 2 ++ [Ev.data ⟨false, some "ok"⟩] ++ failPairs 3
        ++ [Ev.transportError])).1 = ⟨3, false, false⟩ ∧
      (runClient (failPairs 2 ++ [Ev.data ⟨false, some "ok"⟩] ++ failPairs 3
        ++ [Ev.transportError])).2 =
        List.replicate 3 Out.connectAttempt ++ [Out.onMessage ⟨false, some "ok"⟩]
          ++ List.replicate 3 Out.connectAttempt
          ++ [Out.onError ErrKind.connectionLost]) := by
  refine ⟨?_, by decide, by decide⟩
  intro k hk
  interval_cases k <;> constructor <;> decide

/-- C1 (witness): the amended bound at the concrete value k = 2 — after two
consecutive failures with timer fires the client is live with retryCount 2,
having made the initial connection plus two reconnects. -/
theorem progress_retry_bound_witness :
    (runClient (failPairs 2)).1 = ⟨2, true, false⟩ ∧
    (runClient (failPairs 2)).2 = List.replicate 3 Out.connectAttempt :=
  progress_retry_bound.1 2 (by decide)

/-- C3: once an event whose payload has `complete` set to true is received on
a live connection, the run's outputs are exactly the outputs so far plus one
`onComplete` — whatever events `u` a lingering socket or pending timer might
still produce, no further `onMessage`, `onError`, or connection attempt
occurs, and `onComplete` is invoked exactly once. -/
theorem progress_complete_terminal (t u : List Ev) (d : SSEData)
    (hd : d.complete = true) (hl : (runClient t).1.connLive = true) :
    (runClient (t ++ Ev.data d :: u)).2 = (runClient t).2 ++ [Out.onComplete] := by
  have hgood : (runEvents initClient.1 t).1.connLive = true →
      (runEvents initClient.1 t).1.pendingTimer = false :=
    runEvents_good initClient.1 t (by intro _; rfl)
  have hl' : (runEvents initClient.1 t).1.connLive = true := hl
  have hpt : (runEvents initClient.1 t).1.pendingTimer = false := hgood hl'
  set s1 := (runEvents initClient.1 t).1 with hs1
  have hstep : step s1 (Ev.data d) = ({ s1 with connLive := false }, [Out.onComplete]) := by
    simp [step, hl', hd]
  have hdead : runEvents { s1 with connLive := false } u =
      ({ s1 with connLive := false }, []) :=
    runEvents_dead _ u rfl hpt
  show (initClient.2 ++ (runEvents initClient.1 (t ++ Ev.data d :: u)).2) =
    (initClient.2 ++ (runEvents initClient.1 t).2) ++ [Out.onComplete]
  rw [runEvents_append]
  show initClient.2 ++ ((runEvents initClient.1 t).2 ++ (runEvents s1 (Ev.data d :: u)).2) = _
  have : runEvents s1 (Ev.data d :: u) = ({ s1 with connLive := false }, [Out.onComplete]) := by
    simp [runEvents, hstep, hdead]
  rw [this]
  simp

/-- C3 (witness): from a fresh connection, a complete event followed by a
lingering transport error, a timer tick and a further data event produces
exactly one `onComplete` and nothing else. -/
theorem progress_complete_terminal_witness :
    (runClient ([] ++ Ev.data ⟨true, none⟩ ::
        [Ev.transportError, Ev.timerFire, Ev.data ⟨false, some "x"⟩])).2 =
      (runClient []).2 ++ [Out.onComplete] :=
  progress_complete_terminal [] [Ev.transportError, Ev.timerFire, Ev.data ⟨false, some "x"⟩]
    ⟨true, none⟩ rfl (by decide)

/-- C4 (code evaluated at the failing input): `close()` does not cancel the
pending 1-second reconnect timer.  In the run: transport error (schedules the
reconnect), the caller invokes `close()`, the timer then fires and a message
arrives — the client makes a fresh connection attempt and invokes `onMessage`
AFTER the manual close, contradicting the claim that after `close()` returns
no further retry is scheduled and no further callback invocation occurs. -/
theorem close_pending_timer_not_cancelled :
    (runClient [Ev.transportError, Ev.closeHandle, Ev.timerFire,
        Ev.data ⟨false, some "hello"⟩]).2 =
      [Out.connectAttempt, Out.connectAttempt, Out.onMessage ⟨false, some "hello"⟩] := by
  decide

/-- C10: the initial synchronous part of `getProgressUpdates` is total — for
either outcome of the EventSource constructor it returns a handle; on success
the single connection attempt is made, on a synchronous failure the error is
reported through `onError` (no connection exists), the returned `close()` is
a no-op there, and `close()` is idempotent in both cases. -/
theorem getProgressUpdates_total :
    ∀ ok : Bool,
      ((getProgressUpdatesOpen ok).outputs =
        if ok then [Out.connectAttempt] else [Out.onError ErrKind.initFailure]) ∧
      ((getProgressUpdatesOpen ok).everConnected = false →
        handleClose (getProgressUpdatesOpen ok).everConnected
          (getProgressUpdatesOpen ok).state = (getProgressUpdatesOpen ok).state) ∧
      handleClose (getProgressUpdatesOpen ok).everConnected
          (handleClose (getProgressUpdatesOpen ok).everConnected
            (getProgressUpdatesOpen ok).state) =
        handleClose (getProgressUpdatesOpen ok).everConnected
          (getProgressUpdatesOpen ok).state := by
  decide

/-- C2: for every sequence of inbound stream messages, the recorded
`progressUpdates` list — built by folding the page's functional state update
over the sequence — never contains two consecutive entries with the same
message text, hence never two identical consecutive entries, even if the
source emits duplicates back-to-back. -/
theorem progress_no_consecutive_duplicates (msgs : List ProgressData) :
    List.Chain' (fun a b => a.message ≠ b.message)
      (msgs.foldl addProgressUpdate []) ∧
    List.Chain' (fun a b => a ≠ b) (msgs.foldl addProgressUpdate []) := by
  have main : ∀ (ms l : List ProgressData),
      List.Chain' (fun a b => a.message ≠ b.message) l →
      List.Chain' (fun a b => a.message ≠ b.message) (ms.foldl addProgressUpdate l) := by
    intro ms
    induction ms with
    | nil => intro l h; exact h
    | cons m rest ih => intro l h; exact ih _ (addProgressUpdate_chain' l m h)
  have h1 := main msgs [] (by simp)
  exact ⟨h1, h1.imp fun a b hab hEq => hab (by rw [hEq])⟩

theorem foldl_handle401_refreshing (rest : List Nat) :
    ∀ s : AuthRefreshState, s.isRefreshingToken = true →
      rest.foldl handle401 s =
        { s with refreshSubscribers := s.refreshSubscribers ++ rest } := by
  induction rest with
  | nil => intro s _; simp
  | cons a t ih =>
      intro s h
      have ha : handle401 s a =
          { s with refreshSubscribers := s.refreshSubscribers ++ [a] } := by
        simp [handle401, h]
      rw [List.foldl_cons, ha, ih _ (by simp [h])]
      simp

/-- C5: when any nonempty batch of requests fails with 401 concurrently (one
interceptor invocation per request in one event-loop turn, then the single
pending refresh resolving), exactly one `POST /auth/refresh` network call is
issued — later callers subscribe to the pending refresh instead — and after
the refresh resolves every one of the failed requests has been replayed, with
the refresh-in-flight flag cleared and the subscriber queue empty. -/
theorem auth_refresh_single_call (ids : List Nat) (h : ids ≠ []) :
    (refreshResolved (ids.foldl handle401 initAuthRefresh)).refreshCalls = 1 ∧
    (refreshResolved (ids.foldl handle401 initAuthRefresh)).replayed.Perm ids ∧
    (refreshResolved (ids.foldl handle401 initAuthRefresh)).isRefreshingToken = false ∧
    (refreshResolved (ids.foldl handle401 initAuthRefresh)).refreshSubscribers = [] := by
  obtain ⟨i, rest, rfl⟩ := List.exists_cons_of_ne_nil h
  have h1 : handle401 initAuthRefresh i =
      ⟨true, [], some i, 1, []⟩ := by simp [handle401, initAuthRefresh]
  rw [List.foldl_cons, h1, foldl_handle401_refreshing rest _ rfl]
  refine ⟨rfl, ?_, rfl, rfl⟩
  simp only [refreshResolved, List.nil_append]
  exact List.perm_append_singleton i rest

/-- C5 (witness): five concurrent 401 failures — requests 1..5 — cause
exactly one refresh network call and all five are replayed. -/
theorem auth_refresh_single_call_witness :
    (refreshResolved (([1, 2, 3, 4, 5] : List Nat).foldl handle401 initAuthRefresh)).refreshCalls = 1 ∧
    (refreshResolved (([1, 2, 3, 4, 5] : List Nat).foldl handle401 initAuthRefresh)).replayed.Perm
      [1, 2, 3, 4, 5] ∧
    (refreshResolved (([1, 2, 3, 4, 5] : List Nat).foldl handle401 initAuthRefresh)).isRefreshingToken
      = false ∧
    (refreshResolved (([1, 2, 3, 4, 5] : List Nat).foldl handle401 initAuthRefresh)).refreshSubscribers
      = [] :=
  auth_refresh_single_call [1, 2, 3, 4, 5] (by decide)

/-- C6: the façade create operation: with no auth token set it never
contacts the network and returns the identifier the Local History Store
generates locally; with an auth token set and a successful
`POST /learning-paths`, it contacts the network and returns the
server-issued `path_id`, leaving the local store untouched. -/
theorem create_routing (st : LocalStore) (topic : String)
    (remote : Except RemoteErr CreateResp) (token : String) (r : CreateResp) :
    (saveToHistory none remote st topic).1 = false ∧
    (saveToHistory none remote st topic).2.1 = ⟨true, localId st.nextId⟩ ∧
    saveToHistory (some token) (Except.ok r) st topic = (true, ⟨true, r.path_id⟩, st) := by
  exact ⟨rfl, rfl, rfl⟩

/-- C7 (counterexample): an authenticated create whose remote call fails
(here with a 500) is NOT surfaced as an error — it silently redirects to the
Local History Store and reports success with a locally generated identifier,
contradicting the claim that every failed authenticated write (create,
update, or delete) is surfaced to the caller as an error. -/
theorem authenticated_create_falls_back_locally :
    saveToHistory (some "tok") (Except.error ⟨500⟩) ⟨0, []⟩ "topic" =
      (true, ⟨true, "local-0"⟩, ⟨1, [(0, "topic")]⟩) := by
  rfl

/-- C7 (amended): among the façade's write operations only update and delete
surface a failed authenticated remote call as an error (keeping the token);
a failed authenticated create silently falls back to the Local History Store;
and the 401/403 token clearing with local fallback happens on the read path
(`getHistoryPreview`), not in the writes. -/
theorem history_write_failure_semantics (token : String) (e : RemoteErr)
    (st : LocalStore) (topic : String) (cache : Cache) (now : Nat)
    (k : PreviewKey) (localResp : PreviewResp) :
    updateHistoryEntry (some token) (Except.error e) =
      (true, Except.error e, some token) ∧
    deleteHistoryEntry (some token) (Except.error e) =
      (true, Except.error e, some token) ∧
    (saveToHistory (some token) (Except.error e) st topic).2.1 =
      ⟨true, localId st.nextId⟩ ∧
    (cacheGet cache (cacheKey k) = none →
      getHistoryPreview (some token) now cache k (Except.error ⟨401⟩) localResp =
        ⟨1, localResp, cache, none⟩) := by
  refine ⟨rfl, rfl, rfl, fun hmiss => ?_⟩
  simp [getHistoryPreview, hmiss]

/-- C7 (witness): the amended semantics at concrete inputs — a 500 on an
authenticated update is surfaced as the error with the token kept, and a 401
on an authenticated cache-missing preview clears the token and serves the
local listing with one network call. -/
theorem history_write_failure_semantics_witness :
    updateHistoryEntry (some "t") (Except.error ⟨500⟩) =
      (true, Except.error ⟨500⟩, some "t") ∧
    deleteHistoryEntry (some "t") (Except.error ⟨500⟩) =
      (true, Except.error ⟨500⟩, some "t") ∧
    (saveToHistory (some "t") (Except.error ⟨500⟩) ⟨0, []⟩ "x").2.1 =
      ⟨true, localId 0⟩ ∧
    getHistoryPreview (some "t") 0 [] ⟨"creation_date", none, none⟩
        (Except.error ⟨401⟩) ⟨[], 0⟩ = ⟨1, ⟨[], 0⟩, [], none⟩ := by
  have h := history_write_failure_semantics "t" ⟨500⟩ ⟨0, []⟩ "x" [] 0
    ⟨"creation_date", none, none⟩ ⟨[], 0⟩
  exact ⟨h.1, h.2.1, h.2.2.1, h.2.2.2 rfl⟩

/-- C8 (code evaluated at the failing input): the page's `onMessage` handler
derives the percentage from the closure-captured `progressUpdates` value, not
from the sequence including the newly arrived message.  With the captured
list empty and the first inbound message "Finalized learning path", the code
sets the percentage to 10 (the empty-list default), while the claimed
computation — the keyword mapping applied to the sequence including the new
message — yields 95; the recorded list itself is updated correctly. -/
theorem progress_percentage_stale_closure :
    (handleProgressMessage [] [] ⟨"Finalized learning path"⟩).2 = 10 ∧
    calculateProgress (addProgressUpdate [] ⟨"Finalized learning path"⟩) = 95 ∧
    (handleProgressMessage [] [] ⟨"Finalized learning path"⟩).1 =
      [⟨"Finalized learning path"⟩] ∧
    (10 : ℚ) ≠ 95 := by
  refine ⟨rfl, ?_, rfl, by norm_num⟩
  decide

theorem cacheGet_cacheSet_self (c : Cache) (key : String) (e : CacheEntry) :
    cacheGet (cacheSet c key e) key = some e := by
  simp [cacheGet, cacheSet]

/-- C9: under an authenticated session, a preview call that misses the cache
issues exactly one network request and stores the payload under the call's
key with the current timestamp; a second call with the identical
(sortBy, filterSource, searchTerm) key within the 60-second window then makes
no network request and returns the cached payload unchanged — so the pair
causes exactly one request — while a call whose cache entry is at least
60 seconds old issues a fresh request and refreshes the entry. -/
theorem preview_cache_semantics (token : String) (now0 now1 : Nat)
    (cache : Cache) (k : PreviewKey) (r0 local0 local1 : PreviewResp)
    (server1 : Except RemoteErr PreviewResp) (e : CacheEntry)
    (hwin : now1 - now0 < cacheTimeMs) :
    (cacheGet cache (cacheKey k) = none →
      (getHistoryPreview (some token) now0 cache k (Except.ok r0) local0).networkCalls = 1 ∧
      (getHistoryPreview (some token) now0 cache k (Except.ok r0) local0).cache =
        cacheSet cache (cacheKey k) ⟨r0, now0⟩ ∧
      (getHistoryPreview (some token) now1
          (getHistoryPreview (some token) now0 cache k (Except.ok r0) local0).cache
          k server1 local1).networkCalls = 0 ∧
      (getHistoryPreview (some token) now1
          (getHistoryPreview (some token) now0 cache k (Except.ok r0) local0).cache
          k server1 local1).result = r0 ∧
      (getHistoryPreview (some token) now1
          (getHistoryPreview (some token) now0 cache k (Except.ok r0) local0).cache
          k server1 local1).cache =
        (getHistoryPreview (some token) now0 cache k (Except.ok r0) local0).cache) ∧
    (cacheGet cache (cacheKey k) = some e → cacheTimeMs ≤ now0 - e.timestamp →
      (getHistoryPreview (some token) now0 cache k (Except.ok r0) local0).networkCalls = 1 ∧
      (getHistoryPreview (some token) now0 cache k (Except.ok r0) local0).cache =
        cacheSet cache (cacheKey k) ⟨r0, now0⟩) := by
  constructor
  · intro hmiss
    have hc : getHistoryPreview (some token) now0 cache k (Except.ok r0) local0 =
        ⟨1, r0, cacheSet cache (cacheKey k) ⟨r0, now0⟩, some token⟩ := by
      simp [getHistoryPreview, hmiss]
    rw [hc]
    have hc2 : getHistoryPreview (some token) now1
        (cacheSet cache (cacheKey k) ⟨r0, now0⟩) k server1 local1 =
        ⟨0, r0, cacheSet cache (cacheKey k) ⟨r0, now0⟩, some token⟩ := by
      simp [getHistoryPreview, cacheGet_cacheSet_self, hwin]
    rw [hc2]
    exact ⟨rfl, rfl, rfl, rfl, rfl⟩
  · intro hhit hstale
    have hc : getHistoryPreview (some token) now0 cache k (Except.ok r0) local0 =
        ⟨1, r0, cacheSet cache (cacheKey k) ⟨r0, now0⟩, some token⟩ := by
      simp [getHistoryPreview, hhit, Nat.not_lt.mpr hstale]
    rw [hc]
    exact ⟨rfl, rfl⟩

/-- C9 (witness): concretely, with an empty cache, a call at t=0 followed by
a same-key call at t=1 makes one network request then zero, the second call
returning the first call's payload from the refreshed cache. -/
theorem preview_cache_semantics_witness :
    (getHistoryPreview (some "t") 0 [] ⟨"creation_date", none, none⟩
        (Except.ok ⟨["a"], 1⟩) ⟨[], 0⟩).networkCalls = 1 ∧
    (getHistoryPreview (some "t") 1
        (getHistoryPreview (some "t") 0 [] ⟨"creation_date", none, none⟩
          (Except.ok ⟨["a"], 1⟩) ⟨[], 0⟩).cache
        ⟨"creation_date", none, none⟩ (Except.error ⟨0⟩) ⟨[], 0⟩).networkCalls = 0 ∧
    (getHistoryPreview (some "t") 1
        (getHistoryPreview (some "t") 0 [] ⟨"creation_date", none, none⟩
          (Except.ok ⟨["a"], 1⟩) ⟨[], 0⟩).cache
        ⟨"creation_date", none, none⟩ (Except.error ⟨0⟩) ⟨[], 0⟩).result = ⟨["a"], 1⟩ := by
  have h := (preview_cache_semantics "t" 0 1 [] ⟨"creation_date", none, none⟩
    ⟨["a"], 1⟩ ⟨[], 0⟩ ⟨[], 0⟩ (Except.error ⟨0⟩) ⟨⟨[], 0⟩, 0⟩ (by decide)).1 rfl
  exact ⟨h.1, h.2.2.1, h.2.2.2.1⟩

end Learny
